import Mathlib

/-!
Verification of the voice-meet movie-party server (`src/server/enhanced-server.js`
and the plain WebSocket relay in `src/unnamed/part_000`) against its
natural-language specification.

The server state consists of four module-level maps keyed by room id
(`rooms`, `videoStates`, `micStates`, `activeStreams`); they are embedded as
association lists with JavaScript-object semantics (assignment replaces,
`delete` removes, lookup of a missing key yields `none`).  Positions on the
playback clock are rationals (the JS code divides millisecond differences by
1000); timestamps are naturals (milliseconds, as produced by `Date.now()`).
-/

namespace VoiceMeet

/-- One element of a `rooms[roomId]` array: `{ socketId, userName, isHost }`
as pushed by the `join` handler (enhanced-server.js line 317). -/
structure Client where
  socketId : Nat
  userName : String
  isHost : Bool
deriving DecidableEq

/-- One `videoStates[roomId]` record as created by the `/upload-video`
handler (enhanced-server.js lines 132–140). -/
structure VideoState where
  filePath : String
  fileName : String
  isPlaying : Bool
  currentTime : ℚ
  host : String
  uploadTime : Nat
  lastUpdateTime : Nat
deriving DecidableEq

/-- Association list with string keys, modelling a plain JS object used as a
map. -/
abbrev AList (α : Type) := List (String × α)

/-- Lookup, i.e. `obj[key]` (returns `none` for a missing key, like
`undefined`). -/
def alookup {α : Type} : AList α → String → Option α
  | [], _ => none
  | (k, v) :: t, key => if k = key then some v else alookup t key

/-- Key removal, i.e. `delete obj[key]` (a no-op when the key is absent). -/
def aerase {α : Type} (l : AList α) (key : String) : AList α :=
  l.filter (fun p => p.1 != key)

/-- Assignment, i.e. `obj[key] = v` (replaces any previous binding). -/
def ainsert {α : Type} (l : AList α) (key : String) (v : α) : AList α :=
  (key, v) :: aerase l key

/-- The module-level mutable state of enhanced-server.js (lines 60–63):
`rooms`, `videoStates`, `micStates`, and `activeStreams`.  Stream handles
are identified by numeric ids; a room's entry is the contents of its
`Set<ReadStream>`. -/
structure Store where
  rooms : AList (List Client)
  videoStates : AList VideoState
  micStates : AList (List (String × Bool))
  activeStreams : AList (List Nat)
deriving DecidableEq

theorem alookup_ainsert {α : Type} (l : AList α) (k : String) (v : α) :
    alookup (ainsert l k v) k = some v := by
  simp [ainsert, alookup]

theorem alookup_aerase {α : Type} (l : AList α) (k : String) :
    alookup (aerase l k) k = none := by
  induction l with
  | nil => rfl
  | cons p t ih =>
    by_cases h : p.1 = k
    · simpa [aerase, alookup, h] using ih
    · simpa [aerase, alookup, h] using ih

theorem alookup_aerase_ne {α : Type} (l : AList α) (k k' : String) (h : k ≠ k') :
    alookup (aerase l k) k' = alookup l k' := by
  induction l with
  | nil => rfl
  | cons p t ih =>
    by_cases hp : p.1 = k
    · have hq : p.1 ≠ k' := by rw [hp]; exact h
      simpa [aerase, List.filter_cons, hp, alookup, hq, h] using ih
    · by_cases hq : p.1 = k'
      · simp [aerase, List.filter_cons, hp, hq, alookup, Ne.symm h]
      · simpa [aerase, List.filter_cons, alookup, hp, hq] using ih

/-! ### Byte-range movie streaming (`GET /movie/:roomId`, lines 160–283)

With a `Range: bytes=start-end` header present, the handler computes
`start = parseInt(parts[0])`, `end = parts[1] ? parseInt(parts[1]) : fileSize - 1`,
`chunksize = (end - start) + 1`, answers status 206 with
`Content-Range: bytes start-end/fileSize` and `Content-Length: chunksize`,
adds the fresh read stream to `activeStreams[roomId]` (creating the set if
needed), and only then pipes the file to the response. -/

/-- The numbers the range branch of `GET /movie/:roomId` derives from the
request (lines 185–188) and declares in its 206 response head
(lines 198–209). -/
structure RangePlan where
  start : Int
  endIdx : Int
  chunksize : Int
  total : Int
  status : Nat
deriving DecidableEq

/-- Embeds lines 185–188 and 198–209: `endOpt` is the parsed optional
second range bound (`parts[1]`); no clamping is applied to it. -/
def rangePlan (fileSize : Int) (start : Int) (endOpt : Option Int) : RangePlan :=
  let e := match endOpt with
    | some x => x
    | none => fileSize - 1
  { start := start
    endIdx := e
    chunksize := (e - start) + 1
    total := fileSize
    status := 206 }

/-- The `Content-Range` header value declared at line 199. -/
def contentRangeHeader (p : RangePlan) : String :=
  "bytes " ++ toString p.start ++ "-" ++ toString p.endIdx ++ "/" ++ toString p.total

/-- Ordered observable actions of the range branch, in source order:
`activeStreams[roomId].add(file)` (line 196), `res.writeHead(206, head)`
(line 209), `file.pipe(res)` (line 235). -/
inductive StreamAction where
  | register (streamId : Nat)
  | writeHead (status : Nat)
  | pipe (streamId : Nat)
deriving DecidableEq

/-- Embeds the whole range branch (lines 183–235): computes the plan,
registers the fresh stream handle `sid` in the room's active-stream set
(creating the set when absent), and emits the actions in source order —
registration strictly before the piping of any bytes. -/
def serveRange (st : Store) (roomId : String) (fileSize start : Int)
    (endOpt : Option Int) (sid : Nat) : Store × RangePlan × List StreamAction :=
  let plan := rangePlan fileSize start endOpt
  let cur := (alookup st.activeStreams roomId).getD []
  let st' := { st with activeStreams := ainsert st.activeStreams roomId (cur ++ [sid]) }
  (st', plan, [StreamAction.register sid, StreamAction.writeHead plan.status,
    StreamAction.pipe sid])

/-! ### Periodic janitor (`setInterval` body, lines 696–744) -/

/-- Embeds line 711: `Object.values(videoStates).some(state => state.filePath === filePath)`. -/
def isInUse (videoStates : AList VideoState) (filePath : String) : Bool :=
  videoStates.any (fun p => p.2.filePath == filePath)

/-- Embeds lines 718–719: a candidate file is slated for a deletion attempt
iff it is older than one hour and unreferenced, or older than ten minutes
while `videoStates` holds no entry at all.  `fileAge` is in milliseconds. -/
def shouldDelete (videoStates : AList VideoState) (filePath : String)
    (fileAge : Nat) : Bool :=
  (!isInUse videoStates filePath && decide (fileAge > 60 * 60 * 1000)) ||
  (videoStates.isEmpty && decide (fileAge > 10 * 60 * 1000))

/-- Modelled from the spec: deletion is attempted exactly when no live
PlaybackState references the file and its age exceeds a threshold, the
shorter threshold (ten minutes) applying when zero rooms are active at all
and the longer one (one hour) otherwise.  Used only to compare the spec's
wording with `shouldDelete`. -/
def shouldDeleteSpec (rooms : AList (List Client)) (videoStates : AList VideoState)
    (filePath : String) (fileAge : Nat) : Bool :=
  !isInUse videoStates filePath &&
    (if rooms.isEmpty then decide (fileAge > 10 * 60 * 1000)
     else decide (fileAge > 60 * 60 * 1000))

/-- The amended reading: the shorter threshold applies exactly when the
`videoStates` map is empty (zero live PlaybackStates), not when zero rooms
are active. -/
def shouldDeleteAmended (videoStates : AList VideoState) (filePath : String)
    (fileAge : Nat) : Bool :=
  !isInUse videoStates filePath &&
    (if videoStates.isEmpty then decide (fileAge > 10 * 60 * 1000)
     else decide (fileAge > 60 * 60 * 1000))

/-! ### Playback clock (`request-video-state`, `join` sync push, `movie-play`) -/

/-- Payload of a `video-state-sync` emission (lines 339–345, 439–445,
451–457). -/
structure SyncData where
  hasVideo : Bool
  fileName : Option String
  isPlaying : Bool
  currentTime : ℚ
  host : Option String
deriving DecidableEq

/-- Embeds lines 433–437: the reply position is extrapolated only when
`currentState.isPlaying && currentState.lastUpdateTime` holds — the second
conjunct is JavaScript truthiness, so a zero timestamp disables
extrapolation.  `now` is `Date.now()` in milliseconds. -/
def adjustedCurrentTime (vs : VideoState) (now : Nat) : ℚ :=
  if vs.isPlaying && vs.lastUpdateTime != 0 then
    vs.currentTime + ((now : ℚ) - (vs.lastUpdateTime : ℚ)) / 1000
  else vs.currentTime

/-- Embeds the `request-video-state` handler (lines 423–459): with a stored
state it replies with the extrapolated position, otherwise with the
explicit no-asset payload. -/
def requestVideoState (st : Store) (roomId : String) (now : Nat) : SyncData :=
  match alookup st.videoStates roomId with
  | some vs =>
      { hasVideo := true
        fileName := some vs.fileName
        isPlaying := vs.isPlaying
        currentTime := adjustedCurrentTime vs now
        host := some vs.host }
  | none =>
      { hasVideo := false, fileName := none, isPlaying := false
        currentTime := 0, host := none }

/-- Embeds the `join` handler's state push (lines 338–346): when a video
state exists the joiner receives `currentTime` verbatim, with no
extrapolation; with no state, nothing is pushed. -/
def joinVideoSync (st : Store) (roomId : String) : Option SyncData :=
  match alookup st.videoStates roomId with
  | some vs =>
      some { hasVideo := true
             fileName := some vs.fileName
             isPlaying := vs.isPlaying
             currentTime := vs.currentTime
             host := some vs.host }
  | none => none

/-- Events observable by clients, tagged with the receiving socket id where
the emission is targeted. -/
inductive Event where
  | peerLeft (target : Nat) (name : String)
  | moviePartyEnded (target : Nat) (host : String)
  | moviePlay (target : Nat) (currentTime : Option ℚ) (timestamp : Nat)
  | fileDeleted (path : String)
  | streamClosed (id : Nat)
deriving DecidableEq

/-- Embeds the `movie-play` handler (lines 369–381).  The guard is
`videoStates[roomId] && videoStates[roomId].host === userName`; on success
the state is mutated (`data.currentTime || 0` collapses a missing value to
0; 0 is the only falsy rational and maps to 0 either way, so it is embedded
as `getD 0`) and a `movie-play` delta goes to every other member of the
room. -/
def moviePlay (st : Store) (roomId : String) (userName : String) (senderSock : Nat)
    (dataCurrentTime : Option ℚ) (now : Nat) : Store × List Event :=
  match alookup st.videoStates roomId with
  | some vs =>
      if vs.host == userName then
        let vs' := { vs with isPlaying := true
                             currentTime := dataCurrentTime.getD 0
                             lastUpdateTime := now }
        let others := ((alookup st.rooms roomId).getD []).filter
          (fun c => c.socketId != senderSock)
        ({ st with videoStates := ainsert st.videoStates roomId vs' },
         others.map (fun c => Event.moviePlay c.socketId dataCurrentTime now))
      else (st, [])
  | none => (st, [])

/-! ### Signaling relay (`signal` handler, lines 350–366) -/

/-- One relayed `signal` emission: receiving socket, `from` name, opaque
payload. -/
structure Delivery where
  target : Nat
  fromName : String
  payload : String
deriving DecidableEq

/-- Embeds the `signal` handler (lines 350–366).  A targeted message goes to
the first room member whose `userName` matches `data.to`, and is silently
dropped when none matches (or the room is unknown); an untargeted message is
broadcast via `socket.to(roomId)`, i.e. to every member except the sender. -/
def signalRelay (st : Store) (roomId : String) (senderName : String)
    (senderSock : Nat) (toOpt : Option String) (payload : String) : List Delivery :=
  match toOpt with
  | some t =>
      match alookup st.rooms roomId with
      | some members =>
          match members.find? (fun c => c.userName == t) with
          | some c => [{ target := c.socketId, fromName := senderName, payload := payload }]
          | none => []
      | none => []
  | none =>
      (((alookup st.rooms roomId).getD []).filter
        (fun c => c.socketId != senderSock)).map
        (fun c => { target := c.socketId, fromName := senderName, payload := payload })

/-! ### Stream teardown and the disconnect cascade -/

/-- Embeds `closeActiveStreams` (lines 632–645): only when the room has a
registered set *and* it is non-empty are the streams destroyed and the
entry removed; an empty registered set is left in place. -/
def closeActiveStreams (st : Store) (roomId : String) : Store × List Event :=
  match alookup st.activeStreams roomId with
  | some ids =>
      if ids.length > 0 then
        ({ st with activeStreams := aerase st.activeStreams roomId },
         ids.map Event.streamClosed)
      else (st, [])
  | none => (st, [])

/-- Embeds lines 551–554: `if (micStates[roomId]) { delete micStates[roomId][userName] }`. -/
def removeMicEntry (mic : AList (List (String × Bool))) (roomId userName : String) :
    AList (List (String × Bool)) :=
  match alookup mic roomId with
  | some m => ainsert mic roomId (m.filter (fun p => p.1 != userName))
  | none => mic

/-- Embeds the host branch of the `disconnect` handler (lines 560–587): if
the departing user's name matches `videoStates[roomId].host`, the video
file is unlinked, the remaining members are told `movie-party-ended`, the
video state is deleted and the room's active streams are force-closed. -/
def hostCleanup (st : Store) (roomId : String) (userName : String)
    (newMembers : List Client) (wasHost : Bool) : Store × List Event :=
  if wasHost then
    match alookup st.videoStates roomId with
    | some vs =>
        let st' := { st with videoStates := aerase st.videoStates roomId }
        let cs := closeActiveStreams st' roomId
        (cs.1, Event.fileDeleted vs.filePath ::
          (newMembers.map (fun c => Event.moviePartyEnded c.socketId userName) ++ cs.2))
    | none => (st, [])
  else (st, [])

/-- Embeds the empty-room branch of the `disconnect` handler (lines
590–616): the room entry, its mic-state map and any leftover video state
are deleted and `closeActiveStreams` runs once more. -/
def emptyRoomCleanup (st : Store) (roomId : String) : Store × List Event :=
  let st1 := { st with rooms := aerase st.rooms roomId }
  let st2 := { st1 with micStates := aerase st1.micStates roomId }
  match alookup st2.videoStates roomId with
  | some vs =>
      let st3 := { st2 with videoStates := aerase st2.videoStates roomId }
      let cs := closeActiveStreams st3 roomId
      (cs.1, Event.fileDeleted vs.filePath :: cs.2)
  | none =>
      let cs := closeActiveStreams st2 roomId
      (cs.1, cs.2)

/-- Embeds the `disconnect` handler (lines 537–618).  `wasHost` is computed
against the pre-state; when the room is unknown nothing happens; otherwise
the member list is filtered by socket id, the user's mic entry is removed,
`peer-left` goes to the remaining members, then the host branch and — when
the room became empty — the empty-room branch run in source order. -/
def disconnect (st : Store) (roomId : String) (userName : String)
    (socketId : Nat) : Store × List Event :=
  let wasHost := match alookup st.videoStates roomId with
    | some vs => vs.host == userName
    | none => false
  match alookup st.rooms roomId with
  | none => (st, [])
  | some members =>
      let newMembers := members.filter (fun c => c.socketId != socketId)
      let st1 := { st with rooms := ainsert st.rooms roomId newMembers }
      let st2 := { st1 with micStates := removeMicEntry st1.micStates roomId userName }
      let ev1 := newMembers.map (fun c => Event.peerLeft c.socketId userName)
      let hc := hostCleanup st2 roomId userName newMembers wasHost
      if newMembers.isEmpty then
        let ec := emptyRoomCleanup hc.1 roomId
        (ec.1, ev1 ++ hc.2 ++ ec.2)
      else (hc.1, ev1 ++ hc.2)

/-! ## Claims -/

/-- Claim C8: a byte-range request `bytes=100-199` on a room whose asset is
exactly 1000 bytes yields a partial (206) response whose declared
Content-Range is `bytes 100-199/1000` and whose declared body length
(`Content-Length` = chunksize) is exactly 100 bytes. -/
theorem C8_range_100_199_of_1000 :
    rangePlan 1000 100 (some 199) =
      { start := 100, endIdx := 199, chunksize := 100, total := 1000, status := 206 } ∧
    contentRangeHeader (rangePlan 1000 100 (some 199)) = "bytes 100-199/1000" :=
  ⟨rfl, rfl⟩

/-- Claim C1 counterexample: the range branch does not clamp an explicit range
end.  On a 1000-byte asset, `bytes=0-1999` is served with declared end 1999
and chunk length 2000, not the clamped `assetSize − 1 = 999`. -/
theorem C1_counterexample_no_clamp :
    (rangePlan 1000 0 (some 1999)).endIdx = 1999 ∧
    (1999 : Int) ≠ 1000 - 1 ∧
    (rangePlan 1000 0 (some 1999)).chunksize = 2000 :=
  ⟨rfl, by decide, rfl⟩

/-- Claim C1 amended: when the request carries an explicit end greater than
`assetSize − 1`, the served partial response uses that end verbatim —
unclamped — in the declared Content-Range and in the computed chunk length,
and the read handle is registered in the room's ActiveStreamSet before any
bytes are delivered (the `register` action strictly precedes the `pipe`
action in the branch's source-ordered action list). -/
theorem C1_explicit_end_unclamped (st : Store) (roomId : String)
    (fileSize start e : Int) (sid : Nat) (h : e > fileSize - 1) :
    (serveRange st roomId fileSize start (some e) sid).2.1.endIdx = e ∧
    (serveRange st roomId fileSize start (some e) sid).2.1.chunksize = (e - start) + 1 ∧
    sid ∈ (alookup (serveRange st roomId fileSize start (some e) sid).1.activeStreams
      roomId).getD [] ∧
    (serveRange st roomId fileSize start (some e) sid).2.2 =
      [StreamAction.register sid, StreamAction.writeHead 206, StreamAction.pipe sid] := by
  refine ⟨rfl, rfl, ?_, rfl⟩
  simp [serveRange, alookup_ainsert]

/-- Claim C1 witness: the amended theorem applied at a concrete over-long range
request (`bytes=0-1999` on a 1000-byte asset). -/
theorem C1_explicit_end_unclamped_witness :
    (1999 : Int) > 1000 - 1 ∧
    ((serveRange ⟨[], [], [], []⟩ "room1" 1000 0 (some 1999) 5).2.1.endIdx = 1999 ∧
     (serveRange ⟨[], [], [], []⟩ "room1" 1000 0 (some 1999) 5).2.1.chunksize = (1999 - 0) + 1 ∧
     5 ∈ (alookup (serveRange ⟨[], [], [], []⟩ "room1" 1000 0 (some 1999) 5).1.activeStreams
       "room1").getD [] ∧
     (serveRange ⟨[], [], [], []⟩ "room1" 1000 0 (some 1999) 5).2.2 =
       [StreamAction.register 5, StreamAction.writeHead 206, StreamAction.pipe 5]) :=
  ⟨by decide, C1_explicit_end_unclamped ⟨[], [], [], []⟩ "room1" 1000 0 1999 5 (by decide)⟩

/-- Claim C2 counterexample: with one active room but zero video states, a
20-minute-old unreferenced file is deleted by the code (the 10-minute
threshold fires because `videoStates` is empty), while the claim's reading
— shorter threshold only when zero *rooms* are active — forbids deletion
since a room is active. -/
theorem C2_counterexample_rooms_vs_videoStates :
    shouldDelete [] "f" (20 * 60 * 1000) = true ∧
    shouldDeleteSpec [("r", [{ socketId := 1, userName := "alice", isHost := true }])]
      [] "f" (20 * 60 * 1000) = false :=
  ⟨by decide, by decide⟩

/-- Claim C2 amended: the periodic janitor pass attempts deletion exactly when
the file is referenced by no live PlaybackState and its age exceeds a
threshold, where the shorter (10-minute) threshold applies when zero
PlaybackStates exist at all (`videoStates` is empty) and the longer
(1-hour) threshold applies otherwise. -/
theorem C2_janitor_threshold (videoStates : AList VideoState) (filePath : String)
    (fileAge : Nat) :
    shouldDelete videoStates filePath fileAge =
      shouldDeleteAmended videoStates filePath fileAge := by
  cases videoStates with
  | nil =>
      simp only [shouldDelete, shouldDeleteAmended, isInUse, List.any_nil,
        Bool.not_false, Bool.true_and, List.isEmpty_nil, if_true]
      by_cases h : fileAge > 60 * 60 * 1000
      · have h2 : fileAge > 10 * 60 * 1000 := by omega
        simp [h, h2]
      · simp [h]
  | cons p t =>
      simp [shouldDelete, shouldDeleteAmended, List.isEmpty]

/-- Claim C9: `closeActiveStreams` is idempotent on the store — running it twice
in succession leaves the store exactly as one run does — and running it on
a room whose stream set is empty or absent changes nothing. -/
theorem C9_closeActiveStreams_idempotent (st : Store) (roomId : String) :
    (closeActiveStreams (closeActiveStreams st roomId).1 roomId).1 =
      (closeActiveStreams st roomId).1 ∧
    ((alookup st.activeStreams roomId = none ∨
      alookup st.activeStreams roomId = some []) →
      (closeActiveStreams st roomId).1 = st) := by
  constructor
  · cases h : alookup st.activeStreams roomId with
    | none => simp [closeActiveStreams, h]
    | some ids =>
        cases ids with
        | nil => simp [closeActiveStreams, h]
        | cons a t => simp [closeActiveStreams, h, alookup_aerase]
  · rintro (h | h) <;> simp [closeActiveStreams, h]

/-- Concrete store whose room `"r"` has an empty registered stream set. -/
def stC9 : Store :=
  { rooms := [], videoStates := [], micStates := [], activeStreams := [("r", [])] }

/-- Claim C9 witness: the second conjunct of the idempotence theorem applied at a
concrete store whose room `"r"` has an (empty) registered stream set. -/
theorem C9_closeActiveStreams_idempotent_witness :
    (closeActiveStreams stC9 "r").1 = stC9 :=
  (C9_closeActiveStreams_idempotent stC9 "r").2 (Or.inr (by decide))

/-- Helper: with `isPlaying` set and a nonzero stored timestamp, querying
`d` seconds (i.e. `1000 * d` milliseconds) after `lastUpdateTime` yields
the stored position advanced by exactly `d`. -/
theorem adjustedCurrentTime_play (vs : VideoState) (d : Nat)
    (hp : vs.isPlaying = true) (ht : vs.lastUpdateTime ≠ 0) :
    adjustedCurrentTime vs (vs.lastUpdateTime + 1000 * d) = vs.currentTime + d := by
  have hb : (vs.lastUpdateTime != 0) = true := by simpa using ht
  simp only [adjustedCurrentTime, hp, hb, Bool.and_self, if_true]
  push_cast
  ring

/-- Helper: a paused state is never extrapolated. -/
theorem adjustedCurrentTime_paused (vs : VideoState) (now : Nat)
    (hp : vs.isPlaying = false) :
    adjustedCurrentTime vs now = vs.currentTime := by
  simp [adjustedCurrentTime, hp]

/-- A playing state whose `lastUpdateTime` is the (falsy) timestamp 0:
the truthiness guard at line 434 then skips extrapolation. -/
def vsZeroTime : VideoState :=
  { filePath := "p", fileName := "f", isPlaying := true, currentTime := 10,
    host := "h", uploadTime := 0, lastUpdateTime := 0 }

/-- Store holding `vsZeroTime` for room `"room1"`. -/
def stZeroTime : Store :=
  { rooms := [], videoStates := [("room1", vsZeroTime)], micStates := [], activeStreams := [] }

/-- Claim C4 counterexample: for the playing state with position 10 and
`lastUpdateTimestamp` 0, a query 5 seconds later returns 10 — not the
extrapolated 15 the claim demands — because line 434's truthiness test
`currentState.isPlaying && currentState.lastUpdateTime` fails on the falsy
timestamp 0. -/
theorem C4_counterexample_zero_timestamp :
    (requestVideoState stZeroTime "room1" (0 + 1000 * 5)).currentTime = 10 ∧
    (requestVideoState stZeroTime "room1" (0 + 1000 * 5)).currentTime ≠ 10 + 5 := by
  have h : (requestVideoState stZeroTime "room1" (0 + 1000 * 5)).currentTime = 10 := by
    decide
  exact ⟨h, by rw [h]; norm_num⟩

/-- Claim C4 amended: for every room whose PlaybackState has `isPlaying` true,
position `p` and *nonzero* `lastUpdateTimestamp` `T`, a
`request-video-state` query at time `T + d` (seconds) returns position
`p + d`; for every state with `isPlaying` false, the query returns `p`
verbatim with no extrapolation. -/
theorem C4_query_extrapolation (st : Store) (roomId : String) (vs : VideoState)
    (d : Nat) (h : alookup st.videoStates roomId = some vs) :
    (vs.isPlaying = true → vs.lastUpdateTime ≠ 0 →
      (requestVideoState st roomId (vs.lastUpdateTime + 1000 * d)).currentTime =
        vs.currentTime + d) ∧
    (vs.isPlaying = false →
      ∀ now, (requestVideoState st roomId now).currentTime = vs.currentTime) := by
  constructor
  · intro hp ht
    simp [requestVideoState, h, adjustedCurrentTime_play vs d hp ht]
  · intro hp now
    simp [requestVideoState, h, adjustedCurrentTime_paused vs now hp]

/-- A playing state with position 10 and the (truthy) timestamp 7000. -/
def vsPlaying : VideoState :=
  { filePath := "p", fileName := "f", isPlaying := true, currentTime := 10,
    host := "h", uploadTime := 0, lastUpdateTime := 7000 }

/-- Store holding `vsPlaying` for room `"room1"`. -/
def stPlaying : Store :=
  { rooms := [], videoStates := [("room1", vsPlaying)], micStates := [], activeStreams := [] }

/-- Claim C4 witness: the amended theorem applied at `vsPlaying` with a 5-second
delay: the reply position is 10 + 5. -/
theorem C4_query_extrapolation_witness :
    alookup stPlaying.videoStates "room1" = some vsPlaying ∧
    (requestVideoState stPlaying "room1" (vsPlaying.lastUpdateTime + 1000 * 5)).currentTime =
      vsPlaying.currentTime + (5 : Nat) :=
  ⟨rfl, (C4_query_extrapolation stPlaying "room1" vsPlaying 5 rfl).1 rfl (by decide)⟩

/-- A playing state with position 7 and the (falsy) timestamp 0, for the
C10 counterexample. -/
def vsC10 : VideoState :=
  { filePath := "q", fileName := "g", isPlaying := true, currentTime := 7,
    host := "h", uploadTime := 0, lastUpdateTime := 0 }

/-- Store holding `vsC10` for room `"r10"`. -/
def stC10 : Store :=
  { rooms := [], videoStates := [("r10", vsC10)], micStates := [], activeStreams := [] }

/-- Claim C10 counterexample: for a playing state with `lastUpdateTimestamp` 0
the join-time sync does carry the stored position 7 verbatim, but a
subsequent `request-video-state` 3 seconds later also returns 7 rather
than the extrapolated 7 + 3, again because of the truthiness guard at
line 434. -/
theorem C10_counterexample_zero_timestamp :
    (joinVideoSync stC10 "r10").map SyncData.currentTime = some 7 ∧
    (requestVideoState stC10 "r10" (0 + 1000 * 3)).currentTime = 7 ∧
    (requestVideoState stC10 "r10" (0 + 1000 * 3)).currentTime ≠ 7 + 3 := by
  have h : (requestVideoState stC10 "r10" (0 + 1000 * 3)).currentTime = 7 := by decide
  exact ⟨by decide, h, by rw [h]; norm_num⟩

/-- Claim C10 amended: for every join into a room whose PlaybackState has
`isPlaying` true, the `video-state-sync` pushed at join time carries the
stored position verbatim without extrapolation, whereas — provided the
state's `lastUpdateTimestamp` is nonzero — the reply to a subsequent
`request-video-state` carries the position extrapolated by the elapsed
time. -/
theorem C10_join_verbatim_request_extrapolated (st : Store) (roomId : String)
    (vs : VideoState) (d : Nat) (h : alookup st.videoStates roomId = some vs)
    (hp : vs.isPlaying = true) :
    joinVideoSync st roomId =
      some { hasVideo := true, fileName := some vs.fileName, isPlaying := true,
             currentTime := vs.currentTime, host := some vs.host } ∧
    (vs.lastUpdateTime ≠ 0 →
      (requestVideoState st roomId (vs.lastUpdateTime + 1000 * d)).currentTime =
        vs.currentTime + d) := by
  constructor
  · simp [joinVideoSync, h, hp]
  · intro ht
    simp [requestVideoState, h, adjustedCurrentTime_play vs d hp ht]

/-- Claim C10 witness: the amended theorem applied at `vsPlaying` (position 10,
timestamp 7000) with a 4-second delay. -/
theorem C10_join_verbatim_request_extrapolated_witness :
    alookup stPlaying.videoStates "room1" = some vsPlaying ∧
    vsPlaying.isPlaying = true ∧
    (joinVideoSync stPlaying "room1" =
      some { hasVideo := true, fileName := some vsPlaying.fileName, isPlaying := true,
             currentTime := vsPlaying.currentTime, host := some vsPlaying.host } ∧
    (vsPlaying.lastUpdateTime ≠ 0 →
      (requestVideoState stPlaying "room1" (vsPlaying.lastUpdateTime + 1000 * 4)).currentTime =
        vsPlaying.currentTime + (4 : Nat))) :=
  ⟨rfl, rfl,
   C10_join_verbatim_request_extrapolated stPlaying "room1" vsPlaying 4 rfl rfl⟩

/-- Claim C6: a `movie-play` request from a session whose name differs from the
stored `host` leaves the room's video state entry untouched — the same
record, hence unchanged `isPlaying`, `currentTime` and `lastUpdateTime` —
and emits no broadcast to any session. -/
theorem C6_nonhost_play_noop (st : Store) (roomId userName : String)
    (senderSock : Nat) (dataCT : Option ℚ) (now : Nat) (vs : VideoState)
    (h : alookup st.videoStates roomId = some vs) (hne : vs.host ≠ userName) :
    alookup (moviePlay st roomId userName senderSock dataCT now).1.videoStates roomId
      = some vs ∧
    (moviePlay st roomId userName senderSock dataCT now).2 = [] := by
  have hb : (vs.host == userName) = false := by
    simpa using hne
  simp [moviePlay, h, hb]

/-- Store for the C6 witness: room `"r"` has a video state hosted by
`"alice"` and one connected member. -/
def stC6 : Store :=
  { rooms := [("r", [{ socketId := 1, userName := "alice", isHost := true }])]
    videoStates := [("r", vsPlaying)]
    micStates := []
    activeStreams := [] }

/-- Claim C6 witness: the theorem applied at a concrete `movie-play` request from
`"mallory"`, who is not the host `"h"`. -/
theorem C6_nonhost_play_noop_witness :
    alookup stC6.videoStates "r" = some vsPlaying ∧
    vsPlaying.host ≠ "mallory" ∧
    (alookup (moviePlay stC6 "r" "mallory" 9 (some 3) 123).1.videoStates "r" = some vsPlaying ∧
     (moviePlay stC6 "r" "mallory" 9 (some 3) 123).2 = []) :=
  ⟨rfl, by decide,
   C6_nonhost_play_noop stC6 "r" "mallory" 9 (some 3) 123 vsPlaying rfl (by decide)⟩

/-- Claim C7: for every relay of a `signal` message in a room with
duplicate-free socket ids: a targeted message naming an absent user is
delivered to no session (and the relay surfaces nothing to the sender —
its delivery list is empty); an untargeted message reaches every member
other than the sender exactly once, never the sender, carrying the
sender's name and the opaque payload. -/
theorem C7_signal_relay (st : Store) (roomId senderName payload : String)
    (senderSock : Nat) (members : List Client)
    (hm : alookup st.rooms roomId = some members)
    (hnd : (members.map Client.socketId).Nodup) :
    (∀ t, (∀ c ∈ members, c.userName ≠ t) →
      signalRelay st roomId senderName senderSock (some t) payload = []) ∧
    (∀ c ∈ members, c.socketId ≠ senderSock →
      ((signalRelay st roomId senderName senderSock none payload).map
        Delivery.target).count c.socketId = 1) ∧
    (∀ d ∈ signalRelay st roomId senderName senderSock none payload,
      d.target ≠ senderSock ∧ d.fromName = senderName ∧ d.payload = payload) := by
  refine ⟨?_, ?_, ?_⟩
  · intro t ht
    have hf : members.find? (fun c => c.userName == t) = none := by
      rw [List.find?_eq_none]
      intro c hc
      simpa using ht c hc
    simp [signalRelay, hm, hf]
  · intro c hc hcs
    have hmap : (signalRelay st roomId senderName senderSock none payload).map
        Delivery.target =
        (members.filter (fun c => c.socketId != senderSock)).map Client.socketId := by
      simp [signalRelay, hm, List.map_map]
    rw [hmap]
    have hsub : ((members.filter (fun c => c.socketId != senderSock)).map
        Client.socketId).Sublist (members.map Client.socketId) :=
      List.Sublist.map _ (List.filter_sublist _)
    have hnd' := hnd.sublist hsub
    apply List.count_eq_one_of_mem hnd'
    exact List.mem_map_of_mem _ (List.mem_filter.mpr ⟨hc, by simpa using hcs⟩)
  · intro d hd
    simp only [signalRelay, hm, Option.getD_some, List.mem_map, List.mem_filter] at hd
    obtain ⟨c, ⟨hcm, hcs⟩, hgd⟩ := hd
    subst hgd
    exact ⟨by simpa using hcs, rfl, rfl⟩

/-- Member list for the C7 witness: sockets 1 and 2 with names `"a"`,
`"b"`. -/
def membersC7 : List Client :=
  [{ socketId := 1, userName := "a", isHost := true },
   { socketId := 2, userName := "b", isHost := false }]

/-- Store for the C7 witness. -/
def stC7 : Store :=
  { rooms := [("r", membersC7)], videoStates := [], micStates := [], activeStreams := [] }

/-- Claim C7 witness: the relay theorem applied in a concrete two-member room —
a signal targeted at the absent `"zz"` is dropped, and an untargeted
signal from socket 1 reaches socket 2 exactly once. -/
theorem C7_signal_relay_witness :
    signalRelay stC7 "r" "a" 1 (some "zz") "pay" = [] ∧
    ((signalRelay stC7 "r" "a" 1 none "pay").map Delivery.target).count 2 = 1 :=
  ⟨(C7_signal_relay stC7 "r" "a" "pay" 1 membersC7 rfl (by decide)).1 "zz" (by decide),
   (C7_signal_relay stC7 "r" "a" "pay" 1 membersC7 rfl (by decide)).2.1
     { socketId := 2, userName := "b", isHost := false } (by decide) (by decide)⟩

/-! ### Facts about the teardown helpers -/

theorem closeActiveStreams_fst_rooms (st : Store) (r : String) :
    (closeActiveStreams st r).1.rooms = st.rooms := by
  cases h : alookup st.activeStreams r with
  | none => simp [closeActiveStreams, h]
  | some ids =>
      by_cases hl : ids.length > 0
      · simp [closeActiveStreams, h, hl]
      · simp [closeActiveStreams, h, hl]

theorem closeActiveStreams_fst_micStates (st : Store) (r : String) :
    (closeActiveStreams st r).1.micStates = st.micStates := by
  cases h : alookup st.activeStreams r with
  | none => simp [closeActiveStreams, h]
  | some ids =>
      by_cases hl : ids.length > 0
      · simp [closeActiveStreams, h, hl]
      · simp [closeActiveStreams, h, hl]

theorem closeActiveStreams_fst_videoStates (st : Store) (r : String) :
    (closeActiveStreams st r).1.videoStates = st.videoStates := by
  cases h : alookup st.activeStreams r with
  | none => simp [closeActiveStreams, h]
  | some ids =>
      by_cases hl : ids.length > 0
      · simp [closeActiveStreams, h, hl]
      · simp [closeActiveStreams, h, hl]

theorem closeActiveStreams_fst_lookup (st : Store) (r : String) :
    alookup (closeActiveStreams st r).1.activeStreams r = none ∨
    alookup (closeActiveStreams st r).1.activeStreams r = some [] := by
  cases h : alookup st.activeStreams r with
  | none => left; simp [closeActiveStreams, h]
  | some ids =>
      cases ids with
      | nil => right; simp [closeActiveStreams, h]
      | cons a t => left; simp [closeActiveStreams, h, alookup_aerase]

theorem closeActiveStreams_closes (st : Store) (r : String) (ids : List Nat)
    (h : alookup st.activeStreams r = some ids) :
    ∀ i ∈ ids, Event.streamClosed i ∈ (closeActiveStreams st r).2 := by
  intro i hi
  cases ids with
  | nil => cases hi
  | cons a t =>
      have hl : (a :: t).length > 0 := by simp
      simp [closeActiveStreams, h, hl, List.mem_map]
      exact List.mem_cons.mp hi

theorem closeActiveStreams_snd_shape (st : Store) (r : String) :
    ∀ e ∈ (closeActiveStreams st r).2, ∃ i, e = Event.streamClosed i := by
  intro e he
  cases h : alookup st.activeStreams r with
  | none => simp [closeActiveStreams, h] at he
  | some ids =>
      by_cases hl : ids.length > 0
      · simp [closeActiveStreams, h, hl, List.mem_map] at he
        obtain ⟨i, _, rfl⟩ := he
        exact ⟨i, rfl⟩
      · simp [closeActiveStreams, h, hl] at he

theorem emptyRoomCleanup_rooms (st : Store) (r : String) :
    alookup (emptyRoomCleanup st r).1.rooms r = none := by
  cases h : alookup st.videoStates r with
  | none =>
      simp only [emptyRoomCleanup, h]
      rw [closeActiveStreams_fst_rooms]
      exact alookup_aerase _ _
  | some vs =>
      simp only [emptyRoomCleanup, h]
      rw [closeActiveStreams_fst_rooms]
      exact alookup_aerase _ _

theorem emptyRoomCleanup_micStates (st : Store) (r : String) :
    alookup (emptyRoomCleanup st r).1.micStates r = none := by
  cases h : alookup st.videoStates r with
  | none =>
      simp only [emptyRoomCleanup, h]
      rw [closeActiveStreams_fst_micStates]
      exact alookup_aerase _ _
  | some vs =>
      simp only [emptyRoomCleanup, h]
      rw [closeActiveStreams_fst_micStates]
      exact alookup_aerase _ _

theorem emptyRoomCleanup_videoStates (st : Store) (r : String) :
    alookup (emptyRoomCleanup st r).1.videoStates r = none := by
  cases h : alookup st.videoStates r with
  | none =>
      simp only [emptyRoomCleanup, h]
      rw [closeActiveStreams_fst_videoStates]
      exact h
  | some vs =>
      simp only [emptyRoomCleanup, h]
      rw [closeActiveStreams_fst_videoStates]
      exact alookup_aerase _ _

theorem emptyRoomCleanup_activeStreams (st : Store) (r : String) :
    alookup (emptyRoomCleanup st r).1.activeStreams r = none ∨
    alookup (emptyRoomCleanup st r).1.activeStreams r = some [] := by
  cases h : alookup st.videoStates r with
  | none =>
      simp only [emptyRoomCleanup, h]
      exact closeActiveStreams_fst_lookup _ _
  | some vs =>
      simp only [emptyRoomCleanup, h]
      exact closeActiveStreams_fst_lookup _ _

theorem emptyRoomCleanup_snd_shape (st : Store) (r : String) :
    ∀ e ∈ (emptyRoomCleanup st r).2,
      (∃ p, e = Event.fileDeleted p) ∨ (∃ i, e = Event.streamClosed i) := by
  intro e he
  cases h : alookup st.videoStates r with
  | some vs =>
      simp only [emptyRoomCleanup, h, List.mem_cons] at he
      rcases he with rfl | he
      · exact Or.inl ⟨vs.filePath, rfl⟩
      · obtain ⟨i, rfl⟩ := closeActiveStreams_snd_shape _ _ e he
        exact Or.inr ⟨i, rfl⟩
  | none =>
      simp only [emptyRoomCleanup, h] at he
      obtain ⟨i, rfl⟩ := closeActiveStreams_snd_shape _ _ e he
      exact Or.inr ⟨i, rfl⟩

/-! ### C3: empty-room cleanup on disconnect -/

/-- Store for the C3 counterexample: room `"r"` has one member and an
empty — but still registered — active-stream set, as left behind when a
stream ends normally (`cleanupStream` deletes the stream from the set but
never the set itself). -/
def stC3 : Store :=
  { rooms := [("r", [{ socketId := 1, userName := "alice", isHost := true }])]
    videoStates := []
    micStates := [("r", [("alice", false)])]
    activeStreams := [("r", [])] }

/-- Claim C3 counterexample: when the last member of `"r"` disconnects, the room,
mic and video entries are gone, but `activeStreams` still retains the entry
`("r", ∅)` — `closeActiveStreams` skips deletion when `size > 0` fails
(line 633) — so the store does retain an entry keyed by the room id. -/
theorem C3_counterexample_empty_stream_set :
    alookup (disconnect stC3 "r" "alice" 1).1.activeStreams "r" = some [] ∧
    alookup (disconnect stC3 "r" "alice" 1).1.rooms "r" = none := by
  constructor <;> decide

/-- Claim C3 amended: for every room, when its membership reaches zero on a
disconnect, the room entry, its mic-state map entry and (if present) its
video state are all deleted — `rooms`, `micStates` and `videoStates`
retain no entry keyed by that room id — and `activeStreams` retains no
*nonempty* entry for it (an empty registered stream set may remain, since
`closeActiveStreams` only deletes a set with `size > 0`). -/
theorem C3_empty_room_cleanup (st : Store) (roomId userName : String) (sock : Nat)
    (members : List Client) (hr : alookup st.rooms roomId = some members)
    (he : members.filter (fun c => c.socketId != sock) = []) :
    alookup (disconnect st roomId userName sock).1.rooms roomId = none ∧
    alookup (disconnect st roomId userName sock).1.micStates roomId = none ∧
    alookup (disconnect st roomId userName sock).1.videoStates roomId = none ∧
    (alookup (disconnect st roomId userName sock).1.activeStreams roomId = none ∨
     alookup (disconnect st roomId userName sock).1.activeStreams roomId = some []) := by
  have hd : ∃ stMid : Store,
      (disconnect st roomId userName sock).1 = (emptyRoomCleanup stMid roomId).1 := by
    simp only [disconnect, hr, he, List.isEmpty_nil, if_true]
    exact ⟨_, rfl⟩
  obtain ⟨stMid, hd⟩ := hd
  rw [hd]
  exact ⟨emptyRoomCleanup_rooms _ _, emptyRoomCleanup_micStates _ _,
    emptyRoomCleanup_videoStates _ _, emptyRoomCleanup_activeStreams _ _⟩

/-- Claim C3 witness: the amended theorem applied at `stC3`, whose single member
(socket 1) disconnects. -/
theorem C3_empty_room_cleanup_witness :
    alookup stC3.rooms "r" =
      some [{ socketId := 1, userName := "alice", isHost := true }] ∧
    (alookup (disconnect stC3 "r" "alice" 1).1.rooms "r" = none ∧
     alookup (disconnect stC3 "r" "alice" 1).1.micStates "r" = none ∧
     alookup (disconnect stC3 "r" "alice" 1).1.videoStates "r" = none ∧
     (alookup (disconnect stC3 "r" "alice" 1).1.activeStreams "r" = none ∨
      alookup (disconnect stC3 "r" "alice" 1).1.activeStreams "r" = some [])) :=
  ⟨rfl, C3_empty_room_cleanup stC3 "r" "alice" 1
    [{ socketId := 1, userName := "alice", isHost := true }] rfl (by decide)⟩

/-! ### C5: host disconnect tears the movie party down -/

theorem count_mpe_in_peerLeft (l : List Client) (n : Nat) (h1 h2 : String) :
    (l.map (fun c => Event.peerLeft c.socketId h2)).count
      (Event.moviePartyEnded n h1) = 0 := by
  rw [List.count_eq_zero]
  intro hmem
  simp [List.mem_map] at hmem

theorem count_mpe_in_streamEvents (evs : List Event) (n : Nat) (h1 : String)
    (hshape : ∀ e ∈ evs, ∃ i, e = Event.streamClosed i) :
    evs.count (Event.moviePartyEnded n h1) = 0 := by
  rw [List.count_eq_zero]
  intro hmem
  obtain ⟨i, hi⟩ := hshape _ hmem
  exact Event.noConfusion hi

theorem count_mpe_in_cleanupEvents (evs : List Event) (n : Nat) (h1 : String)
    (hshape : ∀ e ∈ evs,
      (∃ p, e = Event.fileDeleted p) ∨ (∃ i, e = Event.streamClosed i)) :
    evs.count (Event.moviePartyEnded n h1) = 0 := by
  rw [List.count_eq_zero]
  intro hmem
  rcases hshape _ hmem with ⟨p, hp⟩ | ⟨i, hi⟩
  · exact Event.noConfusion hp
  · exact Event.noConfusion hi

theorem count_mpe_in_map (l : List Client) (m : Client) (h1 : String)
    (hnd : (l.map Client.socketId).Nodup) (hm : m ∈ l) :
    (l.map (fun c => Event.moviePartyEnded c.socketId h1)).count
      (Event.moviePartyEnded m.socketId h1) = 1 := by
  have hrw : l.map (fun c => Event.moviePartyEnded c.socketId h1) =
      (l.map Client.socketId).map (fun n => Event.moviePartyEnded n h1) := by
    rw [List.map_map]
    rfl
  have hinj : Function.Injective (fun n => Event.moviePartyEnded n h1) := by
    intro a b hab
    simpa using hab
  rw [hrw, List.count_map_of_injective _ _ hinj]
  exact List.count_eq_one_of_mem hnd (List.mem_map_of_mem _ hm)

/-- Claim C5: for every room with a stored video state, when the session whose
name equals the state's host disconnects, each remaining member receives
exactly one `movie-party-ended` notice, the video state entry is removed,
and every stream handle registered for the room is closed (a
`streamClosed` event is emitted for it). -/
theorem C5_host_disconnect (st : Store) (roomId : String) (vs : VideoState)
    (sock : Nat) (members : List Client) (c : Client)
    (hv : alookup st.videoStates roomId = some vs)
    (hr : alookup st.rooms roomId = some members)
    (hcm : c ∈ members) (hcs : c.socketId = sock) (hcn : c.userName = vs.host)
    (hnd : (members.map Client.socketId).Nodup) :
    (∀ m ∈ members.filter (fun x => x.socketId != sock),
      ((disconnect st roomId vs.host sock).2).count
        (Event.moviePartyEnded m.socketId vs.host) = 1) ∧
    alookup (disconnect st roomId vs.host sock).1.videoStates roomId = none ∧
    (∀ ids, alookup st.activeStreams roomId = some ids →
      ∀ i ∈ ids, Event.streamClosed i ∈ (disconnect st roomId vs.host sock).2) := by
  have hnd' : ((members.filter (fun x => x.socketId != sock)).map Client.socketId).Nodup :=
    hnd.sublist (List.Sublist.map _ (List.filter_sublist _))
  by_cases hne : (members.filter (fun x => x.socketId != sock)).isEmpty = true
  · refine ⟨?_, ?_, ?_⟩
    · intro m hm
      rw [List.isEmpty_iff] at hne
      rw [hne] at hm
      cases hm
    · simp only [disconnect, hv, hr, beq_self_eq_true, hostCleanup, if_true, hne]
      exact emptyRoomCleanup_videoStates _ _
    · intro ids hids i hi
      simp only [disconnect, hv, hr, beq_self_eq_true, hostCleanup, if_true, hne]
      have hcl := closeActiveStreams_closes
        (Store.mk (ainsert st.rooms roomId (members.filter (fun c => c.socketId != sock)))
          (aerase st.videoStates roomId) (removeMicEntry st.micStates roomId vs.host)
          st.activeStreams) roomId ids hids i hi
      simp [List.mem_append, List.mem_cons, hcl]
  · refine ⟨?_, ?_, ?_⟩
    · intro m hm
      simp only [disconnect, hv, hr, beq_self_eq_true, hostCleanup, if_true]
      rw [if_neg hne]
      simp only [List.count_append, List.count_cons]
      rw [count_mpe_in_peerLeft, count_mpe_in_map _ m vs.host hnd' hm,
        count_mpe_in_streamEvents _ _ _ (closeActiveStreams_snd_shape _ _)]
      simp
    · simp only [disconnect, hv, hr, beq_self_eq_true, hostCleanup, if_true]
      rw [if_neg hne]
      rw [closeActiveStreams_fst_videoStates]
      exact alookup_aerase _ _
    · intro ids hids i hi
      simp only [disconnect, hv, hr, beq_self_eq_true, hostCleanup, if_true]
      rw [if_neg hne]
      have hcl := closeActiveStreams_closes
        (Store.mk (ainsert st.rooms roomId (members.filter (fun c => c.socketId != sock)))
          (aerase st.videoStates roomId) (removeMicEntry st.micStates roomId vs.host)
          st.activeStreams) roomId ids hids i hi
      simp [List.mem_append, List.mem_cons, hcl]

/-- Member list for the C5 witness: the host `"h"` (socket 1) and `"bob"`
(socket 2). -/
def membersC5 : List Client :=
  [{ socketId := 1, userName := "h", isHost := true },
   { socketId := 2, userName := "bob", isHost := false }]

/-- Store for the C5 witness: room `"r"` plays `vsPlaying` (hosted by
`"h"`) and has one registered stream handle, id 7. -/
def stC5 : Store :=
  { rooms := [("r", membersC5)]
    videoStates := [("r", vsPlaying)]
    micStates := [("r", [("h", false), ("bob", false)])]
    activeStreams := [("r", [7])] }

/-- Claim C5 witness: the theorem applied at `stC5` with the host (socket 1)
disconnecting. -/
theorem C5_host_disconnect_witness :
    alookup stC5.videoStates "r" = some vsPlaying ∧
    ((∀ m ∈ membersC5.filter (fun x => x.socketId != 1),
        ((disconnect stC5 "r" vsPlaying.host 1).2).count
          (Event.moviePartyEnded m.socketId vsPlaying.host) = 1) ∧
     alookup (disconnect stC5 "r" vsPlaying.host 1).1.videoStates "r" = none ∧
     (∀ ids, alookup stC5.activeStreams "r" = some ids →
       ∀ i ∈ ids, Event.streamClosed i ∈ (disconnect stC5 "r" vsPlaying.host 1).2)) :=
  ⟨rfl, C5_host_disconnect stC5 "r" vsPlaying 1 membersC5
    { socketId := 1, userName := "h", isHost := true }
    rfl rfl (by decide) rfl (by decide) (by decide)⟩

end VoiceMeet
